import Mathlib

/-!
Shallow embedding of `src/native/src/internal/zego_texture_renderer.cc`
(`zego::cocos::ZegoTextureRenderer`), the video-frame bridge of the
zego-express-cocos-creator SDK, together with proofs of the specified
properties.

The bridge holds a per-stream numeric identity (`texture_id_`), the most
recent frame geometry (`width_`, `height_`, `rotation_`, `flip_mode_`,
all `uint32_t` in the source, modelled as `Nat` reduced mod `2 ^ 32`),
and an optional scripting-side controller (`js_controller_`, a
`std::shared_ptr<se::Value>` in the source, modelled as `Option`).
Interactions with the scripting engine are recorded as an event trace.
-/

namespace ZegoCocos

/-- Flip mode enum (`ZegoVideoFlipMode`; the header is not part of the
bridge source, constructor names follow the spec: none / horizontal /
vertical / both). -/
inductive ZegoVideoFlipMode where
  | None
  | Horizontal
  | Vertical
  | Both
deriving DecidableEq, Repr

/-- The fields of `ZEGO::EXPRESS::ZegoVideoFrameParam` that
`UpdateFrameBuffer` reads: `width`, `height`, `rotation`. -/
structure ZegoVideoFrameParam where
  width : Nat
  height : Nat
  rotation : Nat
deriving DecidableEq, Repr

/-- A scripting-engine value as `UpdateFrameBuffer` inspects it: either not
an object (`isObject()` false), or an object that may or may not be a
function (`isFunction()`). -/
inductive SeValue where
  | nonObject
  | object (isFunction : Bool)
deriving DecidableEq, Repr

/-- The scripting-side controller object, restricted to the one property the
bridge ever looks up: `getProperty("updateRendererFrameBuffer", &method)`.
`none` models `getProperty` returning `false` (property absent). -/
structure JsController where
  updateRendererFrameBuffer : Option SeValue
deriving DecidableEq, Repr

/-- Whether the looked-up property value passes both guards in the source:
`method.isObject()` and then `func->isFunction()`. -/
def callableMethod : Option SeValue → Bool
  | some (SeValue.object true) => true
  | _ => false

/-- One interaction with the scripting runtime, as performed inside the
`if (js_controller_)` block of `UpdateFrameBuffer`:
`se::ScriptEngine::getInstance()->clearException()` and the synchronous
`func->call(args, ...)` whose arguments are the bridge's `texture_id_`
and the frame data, and whose return value is discarded. -/
inductive ScriptEvent where
  | clearException
  | call (method : String) (textureId : Int) (data : List Nat)
deriving DecidableEq, Repr

/-- State of one `ZegoTextureRenderer` instance. Geometry fields are
`uint32_t` in the source. -/
structure ZegoTextureRenderer where
  texture_id_ : Int
  width_ : Nat
  height_ : Nat
  rotation_ : Nat
  flip_mode_ : ZegoVideoFlipMode
  js_controller_ : Option JsController
deriving DecidableEq, Repr

namespace ZegoTextureRenderer

/-- Modelled from the spec: `GetNextSequence` (declared in `zego_utils.h`,
which is not under `src/`) returns the next value of a process-wide
monotonically increasing counter. Given the current counter it returns
the assigned value and the new counter. -/
def GetNextSequence (seq : Nat) : Nat × Nat := (seq + 1, seq + 1)

/-- Constructor `ZegoTextureRenderer::ZegoTextureRenderer()`:
`texture_id_ = GetNextSequence();`. The process-wide counter is passed
explicitly; the remaining members start default-initialised. -/
def construct (seq : Nat) : ZegoTextureRenderer × Nat :=
  let p := GetNextSequence seq
  ({ texture_id_ := (p.1 : Int)
     width_ := 0
     height_ := 0
     rotation_ := 0
     flip_mode_ := ZegoVideoFlipMode.None
     js_controller_ := none }, p.2)

/-- The list of `texture_id_` values produced by `n` successive
constructions starting from counter value `seq`. -/
def constructIds : Nat → Nat → List Int
  | _, 0 => []
  | seq, n + 1 =>
    let p := construct seq
    p.1.texture_id_ :: constructIds p.2 n

/-- `ZegoTextureRenderer::SetJsController`: stores a counted reference to
the controller (`js_controller_ = std::make_shared<se::Value>(controller)`),
replacing any previous binding. -/
def SetJsController (r : ZegoTextureRenderer) (controller : JsController) :
    ZegoTextureRenderer :=
  { r with js_controller_ := some controller }

/-- Accessor `TextureId()`. -/
def TextureId (r : ZegoTextureRenderer) : Int := r.texture_id_

/-- Accessor `Width()`. -/
def Width (r : ZegoTextureRenderer) : Nat := r.width_

/-- Accessor `Height()`. -/
def Height (r : ZegoTextureRenderer) : Nat := r.height_

/-- Accessor `Rotation()`. -/
def Rotation (r : ZegoTextureRenderer) : Nat := r.rotation_

/-- Accessor `FlipMode()`. -/
def FlipMode (r : ZegoTextureRenderer) : ZegoVideoFlipMode := r.flip_mode_

/-- The scripting-runtime interactions of the `if (js_controller_)` block:
nothing when unbound; when bound, clear the pending exception, look up
`updateRendererFrameBuffer` on the controller, and if it is a callable
function, call it with `(texture_id_, data)`. -/
def frameEvents (ctrl : Option JsController) (textureId : Int)
    (data : List Nat) : List ScriptEvent :=
  match ctrl with
  | none => []
  | some c =>
    if callableMethod c.updateRendererFrameBuffer then
      [ScriptEvent.clearException,
       ScriptEvent.call "updateRendererFrameBuffer" textureId data]
    else
      [ScriptEvent.clearException]

/-- `ZegoTextureRenderer::UpdateFrameBuffer(data, data_length, param,
flip_mode)`: first stores `param.width/height/rotation` and `flip_mode`
into the geometry members (each a `uint32_t`), then, if a controller is
bound, performs the scripting-runtime interactions. Returns the new state
and the event trace. `data_length` is accepted but never read by the
source. -/
def UpdateFrameBuffer (r : ZegoTextureRenderer) (data : List Nat)
    (data_length : Nat) (param : ZegoVideoFrameParam)
    (flip_mode : ZegoVideoFlipMode) :
    ZegoTextureRenderer × List ScriptEvent :=
  let r2 : ZegoTextureRenderer :=
    { r with
      width_ := param.width % 2 ^ 32
      height_ := param.height % 2 ^ 32
      rotation_ := param.rotation % 2 ^ 32
      flip_mode_ := flip_mode }
  (r2, frameEvents r2.js_controller_ r2.texture_id_ data)

/-- The controller-method invocations in an event trace (the
`func->call(...)` events, excluding engine housekeeping). -/
def controllerCalls (evs : List ScriptEvent) : List ScriptEvent :=
  evs.filter fun e =>
    match e with
    | ScriptEvent.call _ _ _ => true
    | _ => false

end ZegoTextureRenderer

end ZegoCocos

namespace ZegoCocos

namespace ZegoTextureRenderer

/-- An operation a client can perform on a live bridge (accessors do not
mutate state and are omitted). -/
inductive BridgeOp where
  | bind (c : JsController)
  | update (data : List Nat) (data_length : Nat) (param : ZegoVideoFrameParam)
      (fm : ZegoVideoFlipMode)

/-- Apply one operation to the bridge state. -/
def applyOp (r : ZegoTextureRenderer) : BridgeOp → ZegoTextureRenderer
  | BridgeOp.bind c => SetJsController r c
  | BridgeOp.update d l p f => (UpdateFrameBuffer r d l p f).1

/-- Apply a sequence of operations to the bridge state. -/
def applyOps (r : ZegoTextureRenderer) (ops : List BridgeOp) :
    ZegoTextureRenderer :=
  ops.foldl applyOp r

/-- In the source the `RunOnCocosThread([...] { ... })` marshalling around
the scripting block of `UpdateFrameBuffer` is commented out, so every
scripting-runtime interaction executes synchronously on whatever thread
invoked `UpdateFrameBuffer`. This wrapper tags each event of the trace with
the id of the calling thread. -/
def UpdateFrameBufferOnThread (callerThread : Nat) (r : ZegoTextureRenderer)
    (data : List Nat) (data_length : Nat) (param : ZegoVideoFrameParam)
    (flip_mode : ZegoVideoFlipMode) :
    ZegoTextureRenderer × List (Nat × ScriptEvent) :=
  let p := UpdateFrameBuffer r data data_length param flip_mode
  (p.1, p.2.map fun e => (callerThread, e))

/-- The property demanded by the spec for frame delivery: every
scripting-runtime event happens on the scripting runtime's single logical
execution thread `scriptThread`. -/
def eventsOnThread (scriptThread : Nat) (evs : List (Nat × ScriptEvent)) :
    Prop :=
  ∀ e ∈ evs, e.1 = scriptThread

instance (t : Nat) (evs : List (Nat × ScriptEvent)) :
    Decidable (eventsOnThread t evs) :=
  inferInstanceAs (Decidable (∀ e ∈ evs, e.1 = t))

/-- The geometry update of `UpdateFrameBuffer` (source lines 34–37) as its
field-level store sequence. The `std::lock_guard<std::mutex>` that would
make the block atomic is commented out in the source, so each store is
individually visible to a concurrently reading thread. -/
def geometryWriteSteps (param : ZegoVideoFrameParam)
    (flip_mode : ZegoVideoFlipMode) :
    List (ZegoTextureRenderer → ZegoTextureRenderer) :=
  [ fun r => { r with width_ := param.width % 2 ^ 32 },
    fun r => { r with height_ := param.height % 2 ^ 32 },
    fun r => { r with rotation_ := param.rotation % 2 ^ 32 },
    fun r => { r with flip_mode_ := flip_mode } ]

/-- The state a concurrent reader observes after the first `k` of the
geometry stores have executed. -/
def afterWrites (r : ZegoTextureRenderer) (k : Nat)
    (param : ZegoVideoFrameParam) (flip_mode : ZegoVideoFlipMode) :
    ZegoTextureRenderer :=
  ((geometryWriteSteps param flip_mode).take k).foldl (fun s f => f s) r

/-- Every id produced by a run of constructions is strictly above the
starting counter value. -/
theorem constructIds_gt (n : Nat) :
    ∀ (seq : Nat), ∀ m ∈ constructIds seq n, (seq : Int) < m := by
  induction n with
  | zero =>
    intro seq m hm
    simp [constructIds] at hm
  | succ k ih =>
    intro seq m hm
    simp only [constructIds, construct, GetNextSequence, List.mem_cons] at hm
    rcases hm with h | h
    · subst h
      exact_mod_cast Nat.lt_succ_self seq
    · have := ih (seq + 1) m h
      have hcast : ((seq : Int)) < ((seq + 1 : Nat) : Int) := by
        exact_mod_cast Nat.lt_succ_self seq
      exact hcast.trans this

/-- The ids of successive constructions are pairwise strictly increasing in
construction order. -/
theorem constructIds_pairwise_lt (n : Nat) :
    ∀ (seq : Nat), (constructIds seq n).Pairwise (· < ·) := by
  induction n with
  | zero =>
    intro seq
    simp [constructIds]
  | succ k ih =>
    intro seq
    simp only [constructIds, construct, GetNextSequence]
    refine List.Pairwise.cons ?_ (ih (seq + 1))
    intro m hm
    exact constructIds_gt k (seq + 1) m hm

/-- A bound controller (`js_controller_` non-null) yields a nonempty
scripting event trace: the bound branch is taken. -/
theorem frameEvents_ne_nil (c : Option JsController) (id : Int)
    (data : List Nat) (h : c.isSome = true) :
    frameEvents c id data ≠ [] := by
  cases c with
  | none => simp at h
  | some ctrl =>
    simp only [frameEvents]
    split <;> simp

/-- No operation clears the controller binding: `applyOps` preserves
boundness. -/
theorem applyOps_preserves_bound (ops : List BridgeOp) :
    ∀ (r : ZegoTextureRenderer), r.js_controller_.isSome = true →
      (applyOps r ops).js_controller_.isSome = true := by
  induction ops with
  | nil =>
    intro r h
    exact h
  | cons op rest ih =>
    intro r h
    cases op with
    | bind c =>
      exact ih (SetJsController r c) (by simp [SetJsController])
    | update d l p f =>
      refine ih _ ?_
      simpa [UpdateFrameBuffer] using h

end ZegoTextureRenderer

end ZegoCocos

namespace ZegoCocos

open ZegoTextureRenderer

/-- C1: on a bridge whose bound controller exposes a callable
`updateRendererFrameBuffer`, one `UpdateFrameBuffer` performs exactly one
controller-method invocation, synchronously within the call, with arguments
`(texture_id_, data)` — the bridge's own identity and the exact bytes passed
in — and the trace records no use of the method's return value. -/
theorem c1_bound_callable_one_exact_call (r : ZegoTextureRenderer)
    (c : JsController) (data : List Nat) (data_length : Nat)
    (param : ZegoVideoFrameParam) (fm : ZegoVideoFlipMode)
    (hb : r.js_controller_ = some c)
    (hc : callableMethod c.updateRendererFrameBuffer = true) :
    controllerCalls (UpdateFrameBuffer r data data_length param fm).2 =
      [ScriptEvent.call "updateRendererFrameBuffer" (TextureId r) data] := by
  simp [UpdateFrameBuffer, frameEvents, hb, hc, controllerCalls, TextureId,
    List.filter]

/-- Witness for C1 at a concrete bound bridge with a callable method. -/
theorem c1_bound_callable_one_exact_call_witness :
    controllerCalls (UpdateFrameBuffer
      { texture_id_ := 9, width_ := 0, height_ := 0, rotation_ := 0,
        flip_mode_ := ZegoVideoFlipMode.None,
        js_controller_ := some ⟨some (SeValue.object true)⟩ }
      [7, 8] 2 ⟨320, 240, 0⟩ ZegoVideoFlipMode.None).2 =
      [ScriptEvent.call "updateRendererFrameBuffer" 9 [7, 8]] :=
  c1_bound_callable_one_exact_call
    { texture_id_ := 9, width_ := 0, height_ := 0, rotation_ := 0,
      flip_mode_ := ZegoVideoFlipMode.None,
      js_controller_ := some ⟨some (SeValue.object true)⟩ }
    ⟨some (SeValue.object true)⟩ [7, 8] 2 ⟨320, 240, 0⟩
    ZegoVideoFlipMode.None rfl rfl

/-- C2: after `UpdateFrameBuffer` with width 640, height 480, rotation 90
and horizontal flip, the accessors return exactly those values, whatever the
prior state and whether or not a controller is bound. -/
theorem c2_accessors_reflect_last_frame (r : ZegoTextureRenderer)
    (data : List Nat) (data_length : Nat) :
    Width (UpdateFrameBuffer r data data_length ⟨640, 480, 90⟩
        ZegoVideoFlipMode.Horizontal).1 = 640 ∧
    Height (UpdateFrameBuffer r data data_length ⟨640, 480, 90⟩
        ZegoVideoFlipMode.Horizontal).1 = 480 ∧
    Rotation (UpdateFrameBuffer r data data_length ⟨640, 480, 90⟩
        ZegoVideoFlipMode.Horizontal).1 = 90 ∧
    FlipMode (UpdateFrameBuffer r data data_length ⟨640, 480, 90⟩
        ZegoVideoFlipMode.Horizontal).1 = ZegoVideoFlipMode.Horizontal :=
  ⟨rfl, rfl, rfl, rfl⟩

/-- C3: the ids assigned by `n` successive constructions are strictly
increasing in construction order, hence pairwise distinct; the id is
assigned only at construction — neither `SetJsController` nor
`UpdateFrameBuffer` changes it — and construction touches nothing but the
fresh instance and the counter. -/
theorem c3_ids_distinct_increasing (seq n : Nat) (r : ZegoTextureRenderer)
    (c : JsController) (data : List Nat) (data_length : Nat)
    (param : ZegoVideoFrameParam) (fm : ZegoVideoFlipMode) :
    (constructIds seq n).Pairwise (· < ·) ∧
    (constructIds seq n).Pairwise (· ≠ ·) ∧
    TextureId (SetJsController r c) = TextureId r ∧
    TextureId (UpdateFrameBuffer r data data_length param fm).1 =
      TextureId r := by
  refine ⟨constructIds_pairwise_lt n seq, ?_, rfl, rfl⟩
  exact (constructIds_pairwise_lt n seq).imp (fun h => ne_of_lt h)

/-- C4: on an unbound bridge, `UpdateFrameBuffer` produces no
scripting-runtime interaction at all, still updates the geometry, and
returns normally (it is a total function of the state). -/
theorem c4_unbound_no_script_interaction (r : ZegoTextureRenderer)
    (data : List Nat) (data_length : Nat) (param : ZegoVideoFrameParam)
    (fm : ZegoVideoFlipMode) (h : r.js_controller_ = none) :
    (UpdateFrameBuffer r data data_length param fm).2 = [] ∧
    (UpdateFrameBuffer r data data_length param fm).1 =
      { r with width_ := param.width % 2 ^ 32,
               height_ := param.height % 2 ^ 32,
               rotation_ := param.rotation % 2 ^ 32,
               flip_mode_ := fm } := by
  simp [UpdateFrameBuffer, frameEvents, h]

/-- Witness for C4 at a concrete unbound bridge. -/
theorem c4_unbound_no_script_interaction_witness :
    (UpdateFrameBuffer
      { texture_id_ := 3, width_ := 0, height_ := 0, rotation_ := 0,
        flip_mode_ := ZegoVideoFlipMode.None, js_controller_ := none }
      [1, 2, 3, 4] 4 ⟨320, 240, 0⟩ ZegoVideoFlipMode.None).2 = [] ∧
    (UpdateFrameBuffer
      { texture_id_ := 3, width_ := 0, height_ := 0, rotation_ := 0,
        flip_mode_ := ZegoVideoFlipMode.None, js_controller_ := none }
      [1, 2, 3, 4] 4 ⟨320, 240, 0⟩ ZegoVideoFlipMode.None).1 =
      { texture_id_ := 3, width_ := 320 % 2 ^ 32, height_ := 240 % 2 ^ 32,
        rotation_ := 0 % 2 ^ 32, flip_mode_ := ZegoVideoFlipMode.None,
        js_controller_ := none } :=
  c4_unbound_no_script_interaction
    { texture_id_ := 3, width_ := 0, height_ := 0, rotation_ := 0,
      flip_mode_ := ZegoVideoFlipMode.None, js_controller_ := none }
    [1, 2, 3, 4] 4 ⟨320, 240, 0⟩ ZegoVideoFlipMode.None rfl

/-- C5: when the bound controller's `updateRendererFrameBuffer` property is
absent or not callable, `UpdateFrameBuffer` completes without any
controller-method invocation while the geometry is still updated to the new
frame's parameters. -/
theorem c5_noncallable_silent_skip (r : ZegoTextureRenderer)
    (c : JsController) (data : List Nat) (data_length : Nat)
    (param : ZegoVideoFrameParam) (fm : ZegoVideoFlipMode)
    (hb : r.js_controller_ = some c)
    (hnc : callableMethod c.updateRendererFrameBuffer = false) :
    controllerCalls (UpdateFrameBuffer r data data_length param fm).2 = [] ∧
    Width (UpdateFrameBuffer r data data_length param fm).1 =
      param.width % 2 ^ 32 ∧
    Height (UpdateFrameBuffer r data data_length param fm).1 =
      param.height % 2 ^ 32 ∧
    Rotation (UpdateFrameBuffer r data data_length param fm).1 =
      param.rotation % 2 ^ 32 ∧
    FlipMode (UpdateFrameBuffer r data data_length param fm).1 = fm := by
  refine ⟨?_, rfl, rfl, rfl, rfl⟩
  simp [UpdateFrameBuffer, frameEvents, hb, hnc, controllerCalls,
    List.filter]

/-- Witness for C5 at a concrete bridge whose controller lacks the
property. -/
theorem c5_noncallable_silent_skip_witness :
    controllerCalls (UpdateFrameBuffer
      { texture_id_ := 4, width_ := 0, height_ := 0, rotation_ := 0,
        flip_mode_ := ZegoVideoFlipMode.None,
        js_controller_ := some ⟨none⟩ }
      [9] 1 ⟨640, 480, 90⟩ ZegoVideoFlipMode.Horizontal).2 = [] ∧
    Width (UpdateFrameBuffer
      { texture_id_ := 4, width_ := 0, height_ := 0, rotation_ := 0,
        flip_mode_ := ZegoVideoFlipMode.None,
        js_controller_ := some ⟨none⟩ }
      [9] 1 ⟨640, 480, 90⟩ ZegoVideoFlipMode.Horizontal).1 =
      640 % 2 ^ 32 ∧
    Height (UpdateFrameBuffer
      { texture_id_ := 4, width_ := 0, height_ := 0, rotation_ := 0,
        flip_mode_ := ZegoVideoFlipMode.None,
        js_controller_ := some ⟨none⟩ }
      [9] 1 ⟨640, 480, 90⟩ ZegoVideoFlipMode.Horizontal).1 =
      480 % 2 ^ 32 ∧
    Rotation (UpdateFrameBuffer
      { texture_id_ := 4, width_ := 0, height_ := 0, rotation_ := 0,
        flip_mode_ := ZegoVideoFlipMode.None,
        js_controller_ := some ⟨none⟩ }
      [9] 1 ⟨640, 480, 90⟩ ZegoVideoFlipMode.Horizontal).1 =
      90 % 2 ^ 32 ∧
    FlipMode (UpdateFrameBuffer
      { texture_id_ := 4, width_ := 0, height_ := 0, rotation_ := 0,
        flip_mode_ := ZegoVideoFlipMode.None,
        js_controller_ := some ⟨none⟩ }
      [9] 1 ⟨640, 480, 90⟩ ZegoVideoFlipMode.Horizontal).1 =
      ZegoVideoFlipMode.Horizontal :=
  c5_noncallable_silent_skip
    { texture_id_ := 4, width_ := 0, height_ := 0, rotation_ := 0,
      flip_mode_ := ZegoVideoFlipMode.None,
      js_controller_ := some ⟨none⟩ }
    ⟨none⟩ [9] 1 ⟨640, 480, 90⟩ ZegoVideoFlipMode.Horizontal rfl rfl

/-- C6 (refuting evaluation): the marshalling onto the scripting runtime's
thread is commented out in the source, so on a bound bridge with a callable
method, a delivery issued from producer thread 1 performs the
controller-method call on thread 1 itself — the trace is not on the
scripting runtime's thread 0. -/
theorem c6_call_runs_on_producer_thread :
    (UpdateFrameBufferOnThread 1
      { texture_id_ := 5, width_ := 0, height_ := 0, rotation_ := 0,
        flip_mode_ := ZegoVideoFlipMode.None,
        js_controller_ := some ⟨some (SeValue.object true)⟩ }
      [1, 2] 2 ⟨640, 480, 90⟩ ZegoVideoFlipMode.None).2 =
      [(1, ScriptEvent.clearException),
       (1, ScriptEvent.call "updateRendererFrameBuffer" 5 [1, 2])] ∧
    ¬ eventsOnThread 0 (UpdateFrameBufferOnThread 1
      { texture_id_ := 5, width_ := 0, height_ := 0, rotation_ := 0,
        flip_mode_ := ZegoVideoFlipMode.None,
        js_controller_ := some ⟨some (SeValue.object true)⟩ }
      [1, 2] 2 ⟨640, 480, 90⟩ ZegoVideoFlipMode.None).2 := by
  constructor
  · rfl
  · decide

/-- C7 (refuting evaluation): the lock is commented out, so the geometry
update is the unsynchronized store sequence `geometryWriteSteps` (whose full
execution coincides with `UpdateFrameBuffer`); a reader interleaved after
the width store alone observes width 640 with the old height 100 — a torn
tuple equal to neither the old geometry (100, 100) nor the new one
(640, 480). -/
theorem c7_torn_geometry_read :
    (∀ (r : ZegoTextureRenderer) (data : List Nat) (data_length : Nat)
       (param : ZegoVideoFrameParam) (fm : ZegoVideoFlipMode),
       afterWrites r 4 param fm =
         (UpdateFrameBuffer r data data_length param fm).1) ∧
    Width (afterWrites
      { texture_id_ := 6, width_ := 100, height_ := 100, rotation_ := 0,
        flip_mode_ := ZegoVideoFlipMode.None, js_controller_ := none }
      1 ⟨640, 480, 90⟩ ZegoVideoFlipMode.Horizontal) = 640 ∧
    Height (afterWrites
      { texture_id_ := 6, width_ := 100, height_ := 100, rotation_ := 0,
        flip_mode_ := ZegoVideoFlipMode.None, js_controller_ := none }
      1 ⟨640, 480, 90⟩ ZegoVideoFlipMode.Horizontal) = 100 ∧
    ((640, 100) ≠ ((100, 100) : Nat × Nat) ∧
     (640, 100) ≠ ((640, 480) : Nat × Nat)) := by
  refine ⟨?_, rfl, rfl, by decide, by decide⟩
  intro r data data_length param fm
  rfl

/-- C8: the `data_length` parameter is never read by `UpdateFrameBuffer`:
two calls whose arguments differ only in `data_length` produce the same
state and the same event trace, so the byte count forwarded to the
controller is in no way bounded by it. -/
theorem c8_data_length_ignored (r : ZegoTextureRenderer) (data : List Nat)
    (len1 len2 : Nat) (param : ZegoVideoFrameParam)
    (fm : ZegoVideoFlipMode) :
    UpdateFrameBuffer r data len1 param fm =
      UpdateFrameBuffer r data len2 param fm :=
  rfl

/-- C9: `SetJsController` always stores a non-null controller reference, no
subsequent operation clears it, and every later `UpdateFrameBuffer`
therefore takes the bound branch (its scripting trace is nonempty). -/
theorem c9_once_bound_stays_bound (r : ZegoTextureRenderer)
    (c : JsController) (ops : List BridgeOp) (data : List Nat)
    (data_length : Nat) (param : ZegoVideoFrameParam)
    (fm : ZegoVideoFlipMode) :
    (SetJsController r c).js_controller_ = some c ∧
    (applyOps (SetJsController r c) ops).js_controller_.isSome = true ∧
    (UpdateFrameBuffer (applyOps (SetJsController r c) ops) data data_length
      param fm).2 ≠ [] := by
  have hbound : (applyOps (SetJsController r c) ops).js_controller_.isSome
      = true :=
    applyOps_preserves_bound ops (SetJsController r c)
      (by simp [SetJsController])
  refine ⟨rfl, hbound, ?_⟩
  exact frameEvents_ne_nil _ _ data hbound

/-- C10: `SetJsController` modifies only the controller reference — the id
and all geometry fields are unchanged. -/
theorem c10_bind_touches_only_controller (r : ZegoTextureRenderer)
    (c : JsController) :
    TextureId (SetJsController r c) = TextureId r ∧
    Width (SetJsController r c) = Width r ∧
    Height (SetJsController r c) = Height r ∧
    Rotation (SetJsController r c) = Rotation r ∧
    FlipMode (SetJsController r c) = FlipMode r :=
  ⟨rfl, rfl, rfl, rfl, rfl⟩

end ZegoCocos
